import Mathlib

/-!
Shallow embedding of the WhatsApp bot webhook relay (conversation state
machine, command router, action dispatcher and per-message webhook loop).

The definitions below are translated from the JavaScript source of the
repository.  JavaScript strings are modelled as Lean `String`; the
string helpers used by the source (`toLowerCase`, `trim`, `includes`,
`startsWith`, `split` at a space) are embedded as explicit, executable
character-list functions with the same behaviour on the ASCII inputs the
program manipulates.  `Date.now()` is an explicit `now : Nat`
(milliseconds) argument; the mutable global object
`userConversationStates` is an explicit association list threaded
through every operation; outbound HTTP collaborators (the n8n automation
webhook) are oracle parameters returning `Except`.
-/

/-- JavaScript `s.toLowerCase()` restricted to ASCII, as performed by
`Char.toLower` on each character. -/
def lowerStr (s : String) : String :=
  String.mk (s.data.map Char.toLower)

/-- JavaScript `s.trim()`: strip whitespace from both ends. -/
def trimStr (s : String) : String :=
  String.mk (((s.data.dropWhile Char.isWhitespace).reverse.dropWhile Char.isWhitespace).reverse)

/-- Does the character list given second start with the pattern given third? -/
def listStartsWith : List Char → List Char → Bool
  | _, [] => true
  | [], _ :: _ => false
  | a :: as, b :: bs => a == b && listStartsWith as bs

/-- Does the second character list contain the first one as a contiguous
sub-list?  (JavaScript `String.prototype.includes`.) -/
def listContainsSub (pat : List Char) : List Char → Bool
  | [] => pat.isEmpty
  | c :: cs => listStartsWith (c :: cs) pat || listContainsSub pat cs

/-- JavaScript `s.includes(pat)`. -/
def hasSubstr (s pat : String) : Bool :=
  listContainsSub pat.data s.data

/-- JavaScript `s.startsWith(pat)`. -/
def strStartsWith (s pat : String) : Bool :=
  listStartsWith s.data pat.data

/-- The collected fields of the email-compose flow (the `data` object of a
conversation state, also the parameter object handed to the n8n email
webhook: fields `to`, `subject`, `body`). -/
structure EmailData where
  toAddr : String
  subject : String
  body : String
  deriving DecidableEq

/-- One per-user conversation state, as stored in
`userConversationStates[fromNumber]`.  `timestamp` is the value of
`Date.now()` (milliseconds) at the last refresh. -/
structure ConversationState where
  flow : String
  step : String
  data : EmailData
  timestamp : Nat
  deriving DecidableEq

/-- The global `userConversationStates` object: an association list from
user identifier (phone number) to conversation state. -/
abbrev Store := List (String × ConversationState)

/-- Reading `userConversationStates[key]`. -/
def storeGet : Store → String → Option ConversationState
  | [], _ => none
  | (k, v) :: rest, key => if k = key then some v else storeGet rest key

/-- Writing `userConversationStates[key] = st` (replace or add). -/
def storeSet : Store → String → ConversationState → Store
  | [], key, st => [(key, st)]
  | (k, v) :: rest, key, st =>
      if k = key then (key, st) :: rest else (k, v) :: storeSet rest key st

/-- `delete userConversationStates[key]`. -/
def storeDel : Store → String → Store
  | [], _ => []
  | (k, v) :: rest, key =>
      if k = key then storeDel rest key else (k, v) :: storeDel rest key

/-- Result object `{success, message}` returned by the command handlers and
the action dispatcher (the optional `data` payload of a successful n8n
call is not tracked). -/
structure ActionResult where
  success : Bool
  message : String
  deriving DecidableEq

/-- Outcome of one command / flow / dispatcher invocation: the result
object, the session store afterwards, and the list of payloads posted to
the n8n email webhook during the invocation. -/
structure FlowOut where
  result : ActionResult
  store : Store
  dispatched : List EmailData
  deriving DecidableEq

/-- The transport oracle for `axios.post(N8N_EMAIL_WEBHOOK, payload)`:
given the email fields and the sender number it returns the response
data, or the error message of a rejected promise.  (The timestamp field
added to the payload is not modelled.) -/
abbrev N8nOracle := EmailData → String → Except String String

/-- `sendEmailViaN8n(params, fromNumber)`: posts the payload to the n8n
webhook; returns success iff the call did not throw, with the transport
error reported in the message otherwise.  The second component records
the one payload posted (the POST is attempted in both branches). -/
def sendEmailViaN8n (n8n : N8nOracle) (params : EmailData) (fromNumber : String) :
    ActionResult × List EmailData :=
  match n8n params fromNumber with
  | Except.ok _ => (⟨true, "Email request sent to n8n"⟩, [params])
  | Except.error e => (⟨false, "Failed to send email via n8n: " ++ e⟩, [params])

/-- Session inactivity window: `10 * 60 * 1000` milliseconds. -/
def expirationTime : Nat := 10 * 60 * 1000

/-- The step logic of `continueEmailFlow` (the `switch (state.step)` after
the expiry check and the timestamp refresh).  In the source the state
object is mutated in place and the store keeps pointing at it, which is
modelled here by an explicit `storeSet`; the branches that delete the
session are modelled by `storeDel`. -/
def continueEmailFlowSteps (n8n : N8nOracle) (message fromNumber : String)
    (state : ConversationState) (store : Store) : FlowOut :=
  if state.step = "recipient" then
    let state := { state with data := { state.data with toAddr := trimStr message }, step := "subject" }
    ⟨⟨true, "Great! Now please enter the subject line:"⟩, storeSet store fromNumber state, []⟩
  else if state.step = "subject" then
    let state := { state with data := { state.data with subject := trimStr message }, step := "body" }
    ⟨⟨true, "Perfect! Now type the email body:"⟩, storeSet store fromNumber state, []⟩
  else if state.step = "body" then
    let state := { state with data := { state.data with body := trimStr message }, step := "confirmation" }
    ⟨⟨true, "Here's your email:\n\nTo: " ++ state.data.toAddr ++ "\nSubject: " ++ state.data.subject
        ++ "\n\n" ++ state.data.body ++ "\n\nType 'send' to send it or 'cancel' to abort."⟩,
      storeSet store fromNumber state, []⟩
  else if state.step = "confirmation" then
    if lowerStr message = "send" then
      ⟨(sendEmailViaN8n n8n state.data fromNumber).1, storeDel store fromNumber,
        (sendEmailViaN8n n8n state.data fromNumber).2⟩
    else if lowerStr message = "cancel" then
      ⟨⟨false, "Email cancelled."⟩, storeDel store fromNumber, []⟩
    else
      ⟨⟨false, "I didn't understand. Type 'send' to send the email or 'cancel' to abort."⟩,
        storeSet store fromNumber state, []⟩
  else
    ⟨⟨false, "Something went wrong with your email. Please try again with /email"⟩,
      storeDel store fromNumber, []⟩

/-- `continueEmailFlow(message, fromNumber, state)`: first the lazy expiry
check (`Date.now() - state.timestamp > expirationTime` deletes the state
and reports expiry before any mutation), then the timestamp refresh
`state.timestamp = Date.now()`, then the step switch. -/
def continueEmailFlow (n8n : N8nOracle) (now : Nat) (message fromNumber : String)
    (state : ConversationState) (store : Store) : FlowOut :=
  if now - state.timestamp > expirationTime then
    ⟨⟨false, "Your email session has expired. Please start again with /email"⟩,
      storeDel store fromNumber, []⟩
  else
    continueEmailFlowSteps n8n message fromNumber { state with timestamp := now } store

/-- `message.split(' ')[0].toLowerCase()`: the characters before the first
space character (the whole string when there is none), lowercased. -/
def commandOf (message : String) : String :=
  lowerStr (String.mk (message.data.takeWhile (fun c => !(c == ' '))))

/-- The `switch (command)` of `handleCommandBasedIntegration` reached when
no active email session swallowed the message: `/email` initialises a
fresh email session at step `recipient`, anything else is an unknown
command and leaves the store untouched. -/
def handleNewCommand (now : Nat) (command fromNumber : String) (store : Store) : FlowOut :=
  if command = "/email" then
    ⟨⟨true, "Please enter recipient's email address:"⟩,
      storeSet store fromNumber ⟨"email", "recipient", ⟨"", "", ""⟩, now⟩, []⟩
  else
    ⟨⟨false, "Unknown command: " ++ command⟩, store, []⟩

/-- `handleCommandBasedIntegration(message, fromNumber)`: when a
conversation state exists for the user and its flow is `email`, the
message is handed to `continueEmailFlow`; otherwise the first
space-delimited token, lowercased, is dispatched as a command. -/
def handleCommandBasedIntegration (n8n : N8nOracle) (now : Nat)
    (message fromNumber : String) (store : Store) : FlowOut :=
  match storeGet store fromNumber with
  | some conversationState =>
      if conversationState.flow = "email" then
        continueEmailFlow n8n now message fromNumber conversationState store
      else
        handleNewCommand now (commandOf message) fromNumber store
  | none => handleNewCommand now (commandOf message) fromNumber store

/-- `executeAction(action, params, userMessage, fromNumber)`: messages
starting with `/` are first re-routed to the command handler; otherwise
the AI-detected action name is dispatched: `email.send` posts to the n8n
webhook, five stub actions report success with a placeholder message,
`none` is a no-op success, and any other name is reported as unknown. -/
def executeAction (n8n : N8nOracle) (now : Nat) (action : String) (params : EmailData)
    (userMessage fromNumber : String) (store : Store) : FlowOut :=
  if userMessage ≠ "" ∧ strStartsWith userMessage "/" = true then
    handleCommandBasedIntegration n8n now userMessage fromNumber store
  else if action = "email.send" then
    ⟨(sendEmailViaN8n n8n params fromNumber).1, store, (sendEmailViaN8n n8n params fromNumber).2⟩
  else if action = "calendar.add" then
    ⟨⟨true, "Calendar event would be created (not actually implemented yet)"⟩, store, []⟩
  else if action = "reminder.add" then
    ⟨⟨true, "Reminder would be set (not actually implemented yet)"⟩, store, []⟩
  else if action = "notes.create" then
    ⟨⟨true, "Note would be created (not actually implemented yet)"⟩, store, []⟩
  else if action = "weather.get" then
    ⟨⟨true, "Weather information would be retrieved (not actually implemented yet)"⟩, store, []⟩
  else if action = "search.web" then
    ⟨⟨true, "Web search would be performed (not actually implemented yet)"⟩, store, []⟩
  else if action = "none" then
    ⟨⟨true, "No action needed"⟩, store, []⟩
  else
    ⟨⟨false, "Unknown action: " ++ action⟩, store, []⟩

/-- The reply/action/params object produced by the AI responder
(`getGeminiResponse`).  Only the email-relevant projection of `params`
is modelled, because the dispatcher consumes `params` solely for
`email.send`. -/
structure AiResponse where
  reply : String
  action : String
  params : EmailData
  deriving DecidableEq

/-- The deterministic branch of `getGeminiResponse` that runs when no
`GEMINI_API_KEY` is configured: keyword matching over the lowercased
message selecting a canned reply and action. -/
def getGeminiResponseMock (userMessage : String) : AiResponse :=
  let m := lowerStr userMessage
  if hasSubstr m "reminder" = true then
    ⟨"I've set a reminder for you as requested.", "reminder.add", ⟨"", "", ""⟩⟩
  else if hasSubstr m "email" = true then
    ⟨"I'll draft that email for you right away.", "email.send",
      ⟨"recipient@example.com", "Example Subject", "This is a test email body."⟩⟩
  else if hasSubstr m "weather" = true then
    ⟨"Here's the current weather information.", "weather.get", ⟨"", "", ""⟩⟩
  else if hasSubstr m "note" = true then
    ⟨"I've created a note with that information.", "notes.create", ⟨"", "", ""⟩⟩
  else if (hasSubstr m "calendar" || hasSubstr m "schedule" || hasSubstr m "meeting") = true then
    ⟨"I've added that event to your calendar.", "calendar.add", ⟨"", "", ""⟩⟩
  else if hasSubstr m "search" = true then
    ⟨"Here are some search results for you.", "search.web", ⟨"", "", ""⟩⟩
  else
    ⟨"Hello! This is a mock response since you're running in test mode without an API key. Try asking about reminders, emails, weather, notes, calendar, or search to see different automation examples.",
      "none", ⟨"", "", ""⟩⟩

/-- Outcome of processing one text message (or a batch): the ordered list
of `sendWhatsAppMessage` attempts `(to, text)`, the n8n email payloads
posted, and the session store afterwards. -/
structure ProcOut where
  sends : List (String × String)
  dispatched : List EmailData
  store : Store
  deriving DecidableEq

/-- The body of the per-message `try` block of the webhook handler:
messages that start with `/` (JavaScript also checks truthiness, which
only excludes the empty string) go to `handleCommandBasedIntegration`
and its outcome is echoed with a success or failure prefix; all other
messages are answered by the AI responder, whose non-`none` action (a
falsy action name is also skipped) is then dispatched, with a follow-up
message on a successful action other than `No action needed`. -/
def processTextMessage (ai : String → AiResponse) (n8n : N8nOracle) (now : Nat)
    (userMessage fromNumber : String) (store : Store) : ProcOut :=
  if userMessage ≠ "" ∧ strStartsWith userMessage "/" = true then
    let commandOut := handleCommandBasedIntegration n8n now userMessage fromNumber store
    let responseMessage :=
      if commandOut.result.success then
        "✅ Command executed successfully: " ++ commandOut.result.message
      else
        "❌ Command failed: " ++ commandOut.result.message
    ⟨[(fromNumber, responseMessage)], commandOut.dispatched, commandOut.store⟩
  else
    let aiResponse := ai userMessage
    if aiResponse.action ≠ "" ∧ aiResponse.action ≠ "none" then
      let actionOut := executeAction n8n now aiResponse.action aiResponse.params userMessage fromNumber store
      if actionOut.result.success = true ∧ actionOut.result.message ≠ "No action needed" then
        ⟨[(fromNumber, aiResponse.reply), (fromNumber, "✅ " ++ actionOut.result.message)],
          actionOut.dispatched, actionOut.store⟩
      else
        ⟨[(fromNumber, aiResponse.reply)], actionOut.dispatched, actionOut.store⟩
    else
      ⟨[(fromNumber, aiResponse.reply)], [], store⟩

/-- Inbound message event shape consumed by the webhook loop. -/
structure InboundMessage where
  type : String
  fromNumber : String
  text : String
  deriving DecidableEq

/-- The generic apology text sent when per-message processing throws. -/
def apologyText : String :=
  "Sorry, I encountered an error processing your message. Please try again."

/-- The per-message `catch` of the webhook loop: a normal outcome passes
through; an exception (whose carried `ProcOut` holds the sends, posts
and store mutations already performed before the throw) is answered by
a best-effort apology to the sender, whose own failure is only logged. -/
def handleMessageResult (fromNumber : String) : Except ProcOut ProcOut → ProcOut
  | Except.ok out => out
  | Except.error errOut =>
      ⟨errOut.sends ++ [(fromNumber, apologyText)], errOut.dispatched, errOut.store⟩

/-- The message loop of the webhook handler: each text message is handled
inside its own try/catch boundary (`handleMessageResult`), non-text
messages are ignored, and processing always continues with the next
message from the store the previous step left behind. -/
def processMessages (body : String → String → Store → Except ProcOut ProcOut) :
    List InboundMessage → Store → ProcOut
  | [], store => ⟨[], [], store⟩
  | m :: rest, store =>
    if m.type = "text" then
      let step := handleMessageResult m.fromNumber (body m.text m.fromNumber store)
      let restOut := processMessages body rest step.store
      ⟨step.sends ++ restOut.sends, step.dispatched ++ restOut.dispatched, restOut.store⟩
    else
      processMessages body rest store

/-- The concrete per-message body: `processTextMessage` never throws,
because every collaborator call inside it catches its own errors. -/
def webhookBody (ai : String → AiResponse) (n8n : N8nOracle) (now : Nat)
    (text fromNumber : String) (store : Store) : Except ProcOut ProcOut :=
  Except.ok (processTextMessage ai n8n now text fromNumber store)

/-- The webhook processor applied to a batch of inbound messages. -/
def runWebhookBatch (ai : String → AiResponse) (n8n : N8nOracle) (now : Nat)
    (msgs : List InboundMessage) (store : Store) : ProcOut :=
  processMessages (webhookBody ai n8n now) msgs store

/-- Position of a step name in the email flow order; unknown step names
are mapped past the end. -/
def stepIndex : String → Nat
  | "recipient" => 0
  | "subject" => 1
  | "body" => 2
  | "confirmation" => 3
  | _ => 4

/-- An n8n transport oracle whose calls all succeed. -/
def n8nOk : N8nOracle := fun _ _ => Except.ok "ok"

/-- An n8n transport oracle whose calls all fail with a connection error. -/
def n8nFail : N8nOracle := fun _ _ => Except.error "connect ECONNREFUSED"

/-- The inbound message batch of the end-to-end email scenario:
`/email`, then recipient, subject, body and the final `send`, all from
the same user. -/
def c2Messages : List InboundMessage :=
  [⟨"text", "u", "/email"⟩, ⟨"text", "u", "a@b.com"⟩, ⟨"text", "u", "Hi"⟩,
   ⟨"text", "u", "body text"⟩, ⟨"text", "u", "send"⟩]

theorem storeGet_storeSet_self (s : Store) (k : String) (v : ConversationState) :
    storeGet (storeSet s k v) k = some v := by
  induction s with
  | nil => simp [storeSet, storeGet]
  | cons p rest ih =>
      obtain ⟨k', v'⟩ := p
      by_cases h : k' = k
      · simp [storeSet, storeGet, h]
      · simp [storeSet, storeGet, h, ih]

theorem storeGet_storeDel_self (s : Store) (k : String) :
    storeGet (storeDel s k) k = none := by
  induction s with
  | nil => simp [storeDel, storeGet]
  | cons p rest ih =>
      obtain ⟨k', v'⟩ := p
      by_cases h : k' = k
      · simp [storeDel, h, ih]
      · simp [storeDel, storeGet, h, ih]

theorem sendEmailViaN8n_snd (n8n : N8nOracle) (p : EmailData) (f : String) :
    (sendEmailViaN8n n8n p f).2 = [p] := by
  cases h : n8n p f <;> simp [sendEmailViaN8n, h]

/-- Claim C3: a session whose timestamp is more than ten minutes older
than the current time is deleted on the next flow-engine entry with the
distinct expiry outcome, before any field is stored, the step advanced
or the timestamp refreshed; every non-expired entry first refreshes the
timestamp and only then runs the step logic. -/
theorem c3_session_expiry (n8n : N8nOracle) (now : Nat) (message fromNumber : String)
    (st : ConversationState) (store : Store) :
    (now - st.timestamp > expirationTime →
      continueEmailFlow n8n now message fromNumber st store =
        ⟨⟨false, "Your email session has expired. Please start again with /email"⟩,
          storeDel store fromNumber, []⟩)
    ∧ (now - st.timestamp ≤ expirationTime →
      continueEmailFlow n8n now message fromNumber st store =
        continueEmailFlowSteps n8n message fromNumber { st with timestamp := now } store) := by
  constructor
  · intro h
    unfold continueEmailFlow
    rw [if_pos h]
  · intro h
    unfold continueEmailFlow
    rw [if_neg (Nat.not_lt.2 h)]

theorem c3_session_expiry_witness :
    continueEmailFlow n8nOk 600001 "x" "u" ⟨"email", "recipient", ⟨"", "", ""⟩, 0⟩
        [("u", ⟨"email", "recipient", ⟨"", "", ""⟩, 0⟩)] =
      ⟨⟨false, "Your email session has expired. Please start again with /email"⟩, [], []⟩
    ∧ continueEmailFlow n8nOk 5 "x" "u" ⟨"email", "recipient", ⟨"", "", ""⟩, 0⟩
        [("u", ⟨"email", "recipient", ⟨"", "", ""⟩, 0⟩)] =
      continueEmailFlowSteps n8nOk "x" "u" ⟨"email", "recipient", ⟨"", "", ""⟩, 5⟩
        [("u", ⟨"email", "recipient", ⟨"", "", ""⟩, 0⟩)] :=
  ⟨(c3_session_expiry n8nOk 600001 "x" "u" ⟨"email", "recipient", ⟨"", "", ""⟩, 0⟩
      [("u", ⟨"email", "recipient", ⟨"", "", ""⟩, 0⟩)]).1 (by decide),
   (c3_session_expiry n8nOk 5 "x" "u" ⟨"email", "recipient", ⟨"", "", ""⟩, 0⟩
      [("u", ⟨"email", "recipient", ⟨"", "", ""⟩, 0⟩)]).2 (by decide)⟩

/-- Claim C4: at a non-expired `confirmation` step, `send` (any case)
dispatches the collected data to the email webhook and deletes the
state, `cancel` (any case) deletes the state with no dispatch and
reports cancellation, and any other input keeps the session at
`confirmation` (timestamp refreshed) and reports not understood. -/
theorem c4_confirmation_step (n8n : N8nOracle) (now : Nat) (message fromNumber : String)
    (st : ConversationState) (store : Store)
    (hstep : st.step = "confirmation")
    (hfresh : now - st.timestamp ≤ expirationTime) :
    (lowerStr message = "send" →
      continueEmailFlow n8n now message fromNumber st store =
        ⟨(sendEmailViaN8n n8n st.data fromNumber).1, storeDel store fromNumber, [st.data]⟩)
    ∧ (lowerStr message = "cancel" →
      continueEmailFlow n8n now message fromNumber st store =
        ⟨⟨false, "Email cancelled."⟩, storeDel store fromNumber, []⟩)
    ∧ (lowerStr message ≠ "send" → lowerStr message ≠ "cancel" →
      continueEmailFlow n8n now message fromNumber st store =
        ⟨⟨false, "I didn't understand. Type 'send' to send the email or 'cancel' to abort."⟩,
          storeSet store fromNumber { st with timestamp := now }, []⟩) := by
  refine ⟨fun hsend => ?_, fun hcancel => ?_, fun hs hc => ?_⟩ <;>
    [skip; skip; skip] <;>
    (unfold continueEmailFlow; rw [if_neg (Nat.not_lt.2 hfresh)])
  · simp [continueEmailFlowSteps, hstep, hsend, sendEmailViaN8n_snd]
  · simp [continueEmailFlowSteps, hstep, hcancel]
  · simp [continueEmailFlowSteps, hstep, hs, hc]

theorem c4_confirmation_step_witness :
    continueEmailFlow n8nOk 5 "SEND" "u" ⟨"email", "confirmation", ⟨"a@b.com", "Hi", "B"⟩, 0⟩
        [("u", ⟨"email", "confirmation", ⟨"a@b.com", "Hi", "B"⟩, 0⟩)] =
      ⟨⟨true, "Email request sent to n8n"⟩, [], [⟨"a@b.com", "Hi", "B"⟩]⟩
    ∧ continueEmailFlow n8nOk 5 "Cancel" "u" ⟨"email", "confirmation", ⟨"a@b.com", "Hi", "B"⟩, 0⟩
        [("u", ⟨"email", "confirmation", ⟨"a@b.com", "Hi", "B"⟩, 0⟩)] =
      ⟨⟨false, "Email cancelled."⟩, [], []⟩
    ∧ continueEmailFlow n8nOk 5 "maybe" "u" ⟨"email", "confirmation", ⟨"a@b.com", "Hi", "B"⟩, 0⟩
        [("u", ⟨"email", "confirmation", ⟨"a@b.com", "Hi", "B"⟩, 0⟩)] =
      ⟨⟨false, "I didn't understand. Type 'send' to send the email or 'cancel' to abort."⟩,
        [("u", ⟨"email", "confirmation", ⟨"a@b.com", "Hi", "B"⟩, 5⟩)], []⟩ :=
  ⟨(c4_confirmation_step n8nOk 5 "SEND" "u" ⟨"email", "confirmation", ⟨"a@b.com", "Hi", "B"⟩, 0⟩
      [("u", ⟨"email", "confirmation", ⟨"a@b.com", "Hi", "B"⟩, 0⟩)] rfl (by decide)).1 (by decide),
   (c4_confirmation_step n8nOk 5 "Cancel" "u" ⟨"email", "confirmation", ⟨"a@b.com", "Hi", "B"⟩, 0⟩
      [("u", ⟨"email", "confirmation", ⟨"a@b.com", "Hi", "B"⟩, 0⟩)] rfl (by decide)).2.1 (by decide),
   (c4_confirmation_step n8nOk 5 "maybe" "u" ⟨"email", "confirmation", ⟨"a@b.com", "Hi", "B"⟩, 0⟩
      [("u", ⟨"email", "confirmation", ⟨"a@b.com", "Hi", "B"⟩, 0⟩)] rfl (by decide)).2.2
      (by decide) (by decide)⟩

/-- Claim C5: at a non-expired `recipient` (resp. `subject`, `body`) step
any input is stored trimmed into `data.to` (resp. `data.subject`,
`data.body`), the step advances to `subject` (resp. `body`,
`confirmation`), the other collected fields are untouched, and the step
position of the state kept for the user never moves backward. -/
theorem c5_field_collection (n8n : N8nOracle) (now : Nat) (message fromNumber : String)
    (st : ConversationState) (store : Store)
    (hfresh : now - st.timestamp ≤ expirationTime) :
    (st.step = "recipient" →
      continueEmailFlow n8n now message fromNumber st store =
        ⟨⟨true, "Great! Now please enter the subject line:"⟩,
          storeSet store fromNumber
            { st with step := "subject", data := { st.data with toAddr := trimStr message },
                      timestamp := now }, []⟩)
    ∧ (st.step = "subject" →
      continueEmailFlow n8n now message fromNumber st store =
        ⟨⟨true, "Perfect! Now type the email body:"⟩,
          storeSet store fromNumber
            { st with step := "body", data := { st.data with subject := trimStr message },
                      timestamp := now }, []⟩)
    ∧ (st.step = "body" →
      continueEmailFlow n8n now message fromNumber st store =
        ⟨⟨true, "Here's your email:\n\nTo: " ++ st.data.toAddr ++ "\nSubject: " ++ st.data.subject
            ++ "\n\n" ++ trimStr message ++ "\n\nType 'send' to send it or 'cancel' to abort."⟩,
          storeSet store fromNumber
            { st with step := "confirmation", data := { st.data with body := trimStr message },
                      timestamp := now }, []⟩)
    ∧ (∀ s', storeGet (continueEmailFlow n8n now message fromNumber st store).store fromNumber
          = some s' → stepIndex st.step ≤ stepIndex s'.step) := by
  refine ⟨fun h1 => ?_, fun h2 => ?_, fun h3 => ?_, fun s' hs' => ?_⟩
  · unfold continueEmailFlow
    rw [if_neg (Nat.not_lt.2 hfresh)]
    simp [continueEmailFlowSteps, h1]
  · unfold continueEmailFlow
    rw [if_neg (Nat.not_lt.2 hfresh)]
    simp [continueEmailFlowSteps, h2]
  · unfold continueEmailFlow
    rw [if_neg (Nat.not_lt.2 hfresh)]
    simp [continueEmailFlowSteps, h3]
  · unfold continueEmailFlow at hs'
    rw [if_neg (Nat.not_lt.2 hfresh)] at hs'
    by_cases h1 : st.step = "recipient"
    · simp [continueEmailFlowSteps, h1, storeGet_storeSet_self] at hs'
      simp [h1, ← hs', stepIndex]
    · by_cases h2 : st.step = "subject"
      · simp [continueEmailFlowSteps, h1, h2, storeGet_storeSet_self] at hs'
        simp [h2, ← hs', stepIndex]
      · by_cases h3 : st.step = "body"
        · simp [continueEmailFlowSteps, h1, h2, h3, storeGet_storeSet_self] at hs'
          simp [h3, ← hs', stepIndex]
        · by_cases h4 : st.step = "confirmation"
          · by_cases hsend : lowerStr message = "send"
            · simp [continueEmailFlowSteps, h1, h2, h3, h4, hsend,
                storeGet_storeDel_self] at hs'
            · by_cases hcancel : lowerStr message = "cancel"
              · simp [continueEmailFlowSteps, h1, h2, h3, h4, hsend, hcancel,
                  storeGet_storeDel_self] at hs'
              · simp [continueEmailFlowSteps, h1, h2, h3, h4, hsend, hcancel,
                  storeGet_storeSet_self] at hs'
                simp [h4, ← hs', stepIndex]
          · simp [continueEmailFlowSteps, h1, h2, h3, h4, storeGet_storeDel_self] at hs'

theorem c5_field_collection_witness :
    continueEmailFlow n8nOk 5 " a@b.com " "u" ⟨"email", "recipient", ⟨"", "", ""⟩, 0⟩
        [("u", ⟨"email", "recipient", ⟨"", "", ""⟩, 0⟩)] =
      ⟨⟨true, "Great! Now please enter the subject line:"⟩,
        [("u", ⟨"email", "subject", ⟨"a@b.com", "", ""⟩, 5⟩)], []⟩
    ∧ continueEmailFlow n8nOk 5 "Hi" "u" ⟨"email", "subject", ⟨"a@b.com", "", ""⟩, 0⟩
        [("u", ⟨"email", "subject", ⟨"a@b.com", "", ""⟩, 0⟩)] =
      ⟨⟨true, "Perfect! Now type the email body:"⟩,
        [("u", ⟨"email", "body", ⟨"a@b.com", "Hi", ""⟩, 5⟩)], []⟩
    ∧ continueEmailFlow n8nOk 5 "body text" "u" ⟨"email", "body", ⟨"a@b.com", "Hi", ""⟩, 0⟩
        [("u", ⟨"email", "body", ⟨"a@b.com", "Hi", ""⟩, 0⟩)] =
      ⟨⟨true, "Here's your email:\n\nTo: a@b.com\nSubject: Hi\n\nbody text\n\nType 'send' to send it or 'cancel' to abort."⟩,
        [("u", ⟨"email", "confirmation", ⟨"a@b.com", "Hi", "body text"⟩, 5⟩)], []⟩
    ∧ stepIndex "recipient" ≤ stepIndex "subject" :=
  ⟨(c5_field_collection n8nOk 5 " a@b.com " "u" ⟨"email", "recipient", ⟨"", "", ""⟩, 0⟩
      [("u", ⟨"email", "recipient", ⟨"", "", ""⟩, 0⟩)] (by decide)).1 rfl,
   (c5_field_collection n8nOk 5 "Hi" "u" ⟨"email", "subject", ⟨"a@b.com", "", ""⟩, 0⟩
      [("u", ⟨"email", "subject", ⟨"a@b.com", "", ""⟩, 0⟩)] (by decide)).2.1 rfl,
   (c5_field_collection n8nOk 5 "body text" "u" ⟨"email", "body", ⟨"a@b.com", "Hi", ""⟩, 0⟩
      [("u", ⟨"email", "body", ⟨"a@b.com", "Hi", ""⟩, 0⟩)] (by decide)).2.2.1 rfl,
   (c5_field_collection n8nOk 5 " a@b.com " "u" ⟨"email", "recipient", ⟨"", "", ""⟩, 0⟩
      [("u", ⟨"email", "recipient", ⟨"", "", ""⟩, 0⟩)] (by decide)).2.2.2
      ⟨"email", "subject", ⟨"a@b.com", "", ""⟩, 5⟩ (by decide)⟩

/-- Claim C8: a non-expired session whose step is none of the four known
step names makes the flow engine delete the state and return the
generic flow-error outcome pointing the user back to `/email`. -/
theorem c8_unknown_step_resets (n8n : N8nOracle) (now : Nat) (message fromNumber : String)
    (st : ConversationState) (store : Store)
    (hfresh : now - st.timestamp ≤ expirationTime)
    (h1 : st.step ≠ "recipient") (h2 : st.step ≠ "subject")
    (h3 : st.step ≠ "body") (h4 : st.step ≠ "confirmation") :
    continueEmailFlow n8n now message fromNumber st store =
      ⟨⟨false, "Something went wrong with your email. Please try again with /email"⟩,
        storeDel store fromNumber, []⟩ := by
  unfold continueEmailFlow
  rw [if_neg (Nat.not_lt.2 hfresh)]
  simp [continueEmailFlowSteps, h1, h2, h3, h4]

theorem c8_unknown_step_resets_witness :
    continueEmailFlow n8nOk 5 "anything" "u" ⟨"email", "bogus", ⟨"a", "b", "c"⟩, 0⟩
        [("u", ⟨"email", "bogus", ⟨"a", "b", "c"⟩, 0⟩)] =
      ⟨⟨false, "Something went wrong with your email. Please try again with /email"⟩, [], []⟩ :=
  c8_unknown_step_resets n8nOk 5 "anything" "u" ⟨"email", "bogus", ⟨"a", "b", "c"⟩, 0⟩
    [("u", ⟨"email", "bogus", ⟨"a", "b", "c"⟩, 0⟩)]
    (by decide) (by decide) (by decide) (by decide) (by decide)

/-- Claim C9: at a non-expired `confirmation` step, `send` (any case)
deletes the conversation state unconditionally — also when the webhook
call fails — returning the dispatch result as-is, so the collected
draft is no longer retained for the user. -/
theorem c9_send_unconditional_cleanup (n8n : N8nOracle) (now : Nat)
    (message fromNumber : String) (st : ConversationState) (store : Store)
    (hstep : st.step = "confirmation")
    (hfresh : now - st.timestamp ≤ expirationTime)
    (hsend : lowerStr message = "send") :
    continueEmailFlow n8n now message fromNumber st store =
      ⟨(sendEmailViaN8n n8n st.data fromNumber).1, storeDel store fromNumber, [st.data]⟩
    ∧ storeGet (storeDel store fromNumber) fromNumber = none := by
  constructor
  · unfold continueEmailFlow
    rw [if_neg (Nat.not_lt.2 hfresh)]
    simp [continueEmailFlowSteps, hstep, hsend, sendEmailViaN8n_snd]
  · exact storeGet_storeDel_self store fromNumber

theorem c9_send_unconditional_cleanup_witness :
    continueEmailFlow n8nFail 5 "send" "u" ⟨"email", "confirmation", ⟨"a@b.com", "Hi", "B"⟩, 0⟩
        [("u", ⟨"email", "confirmation", ⟨"a@b.com", "Hi", "B"⟩, 0⟩)] =
      ⟨⟨false, "Failed to send email via n8n: connect ECONNREFUSED"⟩, [],
        [⟨"a@b.com", "Hi", "B"⟩]⟩
    ∧ storeGet (storeDel [("u", ⟨"email", "confirmation", ⟨"a@b.com", "Hi", "B"⟩, 0⟩)] "u") "u"
        = none :=
  c9_send_unconditional_cleanup n8nFail 5 "send" "u"
    ⟨"email", "confirmation", ⟨"a@b.com", "Hi", "B"⟩, 0⟩
    [("u", ⟨"email", "confirmation", ⟨"a@b.com", "Hi", "B"⟩, 0⟩)]
    rfl (by decide) (by decide)

/-- Claim C6: for an input message not beginning with a slash the
dispatcher returns, per action name: for `email.send` success exactly
when the webhook call returns without error with any failure caught and
reported in the result; for the five stub actions success with their
placeholder messages; for `none` a no-op success; and for every other
name a failure echoing that name — the store untouched in every case. -/
theorem c6_dispatch_table (n8n : N8nOracle) (now : Nat) (action : String)
    (params : EmailData) (userMessage fromNumber : String) (store : Store)
    (hslash : strStartsWith userMessage "/" = false) :
    (action = "email.send" →
      (∀ d, n8n params fromNumber = Except.ok d →
        executeAction n8n now action params userMessage fromNumber store =
          ⟨⟨true, "Email request sent to n8n"⟩, store, [params]⟩)
      ∧ (∀ e, n8n params fromNumber = Except.error e →
        executeAction n8n now action params userMessage fromNumber store =
          ⟨⟨false, "Failed to send email via n8n: " ++ e⟩, store, [params]⟩))
    ∧ (action = "calendar.add" →
      executeAction n8n now action params userMessage fromNumber store =
        ⟨⟨true, "Calendar event would be created (not actually implemented yet)"⟩, store, []⟩)
    ∧ (action = "reminder.add" →
      executeAction n8n now action params userMessage fromNumber store =
        ⟨⟨true, "Reminder would be set (not actually implemented yet)"⟩, store, []⟩)
    ∧ (action = "notes.create" →
      executeAction n8n now action params userMessage fromNumber store =
        ⟨⟨true, "Note would be created (not actually implemented yet)"⟩, store, []⟩)
    ∧ (action = "weather.get" →
      executeAction n8n now action params userMessage fromNumber store =
        ⟨⟨true, "Weather information would be retrieved (not actually implemented yet)"⟩, store, []⟩)
    ∧ (action = "search.web" →
      executeAction n8n now action params userMessage fromNumber store =
        ⟨⟨true, "Web search would be performed (not actually implemented yet)"⟩, store, []⟩)
    ∧ (action = "none" →
      executeAction n8n now action params userMessage fromNumber store =
        ⟨⟨true, "No action needed"⟩, store, []⟩)
    ∧ (action ≠ "email.send" → action ≠ "calendar.add" → action ≠ "reminder.add" →
       action ≠ "notes.create" → action ≠ "weather.get" → action ≠ "search.web" →
       action ≠ "none" →
      executeAction n8n now action params userMessage fromNumber store =
        ⟨⟨false, "Unknown action: " ++ action⟩, store, []⟩) := by
  refine ⟨fun ha => ⟨fun d hd => ?_, fun e he => ?_⟩, fun ha => ?_, fun ha => ?_, fun ha => ?_,
    fun ha => ?_, fun ha => ?_, fun ha => ?_, fun ha1 ha2 ha3 ha4 ha5 ha6 ha7 => ?_⟩ <;>
    first
      | (subst ha; simp [executeAction, hslash, sendEmailViaN8n, hd])
      | (subst ha; simp [executeAction, hslash, sendEmailViaN8n, he])
      | (subst ha; simp [executeAction, hslash])
      | simp [executeAction, hslash, ha1, ha2, ha3, ha4, ha5, ha6, ha7]

theorem c6_dispatch_table_witness :
    executeAction n8nOk 0 "email.send" ⟨"a", "b", "c"⟩ "hello" "u" [] =
      ⟨⟨true, "Email request sent to n8n"⟩, [], [⟨"a", "b", "c"⟩]⟩
    ∧ executeAction n8nFail 0 "email.send" ⟨"a", "b", "c"⟩ "hello" "u" [] =
      ⟨⟨false, "Failed to send email via n8n: connect ECONNREFUSED"⟩, [], [⟨"a", "b", "c"⟩]⟩
    ∧ executeAction n8nOk 0 "calendar.add" ⟨"a", "b", "c"⟩ "hello" "u" [] =
      ⟨⟨true, "Calendar event would be created (not actually implemented yet)"⟩, [], []⟩
    ∧ executeAction n8nOk 0 "none" ⟨"a", "b", "c"⟩ "hello" "u" [] =
      ⟨⟨true, "No action needed"⟩, [], []⟩
    ∧ executeAction n8nOk 0 "foo.bar" ⟨"a", "b", "c"⟩ "hello" "u" [] =
      ⟨⟨false, "Unknown action: foo.bar"⟩, [], []⟩ :=
  ⟨((c6_dispatch_table n8nOk 0 "email.send" ⟨"a", "b", "c"⟩ "hello" "u" [] (by decide)).1
      rfl).1 "ok" rfl,
   ((c6_dispatch_table n8nFail 0 "email.send" ⟨"a", "b", "c"⟩ "hello" "u" [] (by decide)).1
      rfl).2 "connect ECONNREFUSED" rfl,
   (c6_dispatch_table n8nOk 0 "calendar.add" ⟨"a", "b", "c"⟩ "hello" "u" [] (by decide)).2.1 rfl,
   (c6_dispatch_table n8nOk 0 "none" ⟨"a", "b", "c"⟩ "hello" "u" [] (by decide)).2.2.2.2.2.2.1 rfl,
   (c6_dispatch_table n8nOk 0 "foo.bar" ⟨"a", "b", "c"⟩ "hello" "u" [] (by decide)).2.2.2.2.2.2.2
     (by decide) (by decide) (by decide) (by decide) (by decide) (by decide) (by decide)⟩

/-- Claim C10, counterexample: for the slash message `/FOO` from a user
with no state, the outcome is a failure and the store is unchanged, but
the message echoes the lowercased token `/foo` and does not contain the
unrecognized command token `/FOO` itself, contrary to the claim. -/
theorem c10_uppercase_token_counterexample :
    (handleCommandBasedIntegration n8nOk 0 "/FOO" "u" []).result.success = false
    ∧ (handleCommandBasedIntegration n8nOk 0 "/FOO" "u" []).store = []
    ∧ (handleCommandBasedIntegration n8nOk 0 "/FOO" "u" []).result.message =
        "Unknown command: /foo"
    ∧ hasSubstr (handleCommandBasedIntegration n8nOk 0 "/FOO" "u" []).result.message "/FOO"
        = false := by
  decide

/-- Claim C10 as amended: for every user with no active conversation
state, an inbound message beginning with a slash whose first
space-delimited token, lowercased, is not the recognized command
`/email` returns the failure outcome whose message is exactly
`Unknown command: ` followed by that lowercased token, with the session
store left completely unchanged and nothing dispatched. -/
theorem c10_unknown_command_amended (n8n : N8nOracle) (now : Nat)
    (message fromNumber : String) (store : Store)
    (_hslash : strStartsWith message "/" = true)
    (hnostate : storeGet store fromNumber = none)
    (hcmd : commandOf message ≠ "/email") :
    handleCommandBasedIntegration n8n now message fromNumber store =
      ⟨⟨false, "Unknown command: " ++ commandOf message⟩, store, []⟩ := by
  unfold handleCommandBasedIntegration
  rw [hnostate]
  unfold handleNewCommand
  rw [if_neg hcmd]

theorem c10_unknown_command_amended_witness :
    handleCommandBasedIntegration n8nOk 0 "/FOO bar" "u" [] =
      ⟨⟨false, "Unknown command: /foo"⟩, [], []⟩ :=
  c10_unknown_command_amended n8nOk 0 "/FOO bar" "u" [] (by decide) rfl (by decide)

/-- Claim C1, code-bug demonstration: with an active email session at
step `recipient` for user `u`, the plain text `a@b.com` is answered by
the AI responder path (the mock reply is sent, the session neither
advances nor is consulted), because the webhook handler routes on the
slash prefix before any session lookup; had the message been routed to
the flow engine as the claim requires, the session would have advanced
to step `subject` with the recipient stored, as the second conjunct
shows. -/
theorem c1_free_text_bypasses_active_session :
    (∀ n8n : N8nOracle,
      processTextMessage getGeminiResponseMock n8n 1000 "a@b.com" "u"
          [("u", ⟨"email", "recipient", ⟨"", "", ""⟩, 0⟩)] =
        ⟨[("u", (getGeminiResponseMock "a@b.com").reply)], [],
          [("u", ⟨"email", "recipient", ⟨"", "", ""⟩, 0⟩)]⟩)
    ∧ (∀ n8n : N8nOracle,
      continueEmailFlow n8n 1000 "a@b.com" "u" ⟨"email", "recipient", ⟨"", "", ""⟩, 0⟩
          [("u", ⟨"email", "recipient", ⟨"", "", ""⟩, 0⟩)] =
        ⟨⟨true, "Great! Now please enter the subject line:"⟩,
          [("u", ⟨"email", "subject", ⟨"a@b.com", "", ""⟩, 1000⟩)], []⟩) :=
  ⟨fun _ => rfl, fun _ => rfl⟩

/-- Claim C2, code-bug demonstration: running the full webhook batch
`/email`, `a@b.com`, `Hi`, `body text`, `send` from user `u` on an
empty store (mock AI responder, any n8n transport) posts nothing at all
to the email webhook and leaves the session still at step `recipient`
with no field collected — not one `email.send` dispatch and an empty
store as the claim requires. -/
theorem c2_email_sequence_never_dispatches :
    ∀ n8n : N8nOracle,
      (runWebhookBatch getGeminiResponseMock n8n 0 c2Messages []).dispatched = []
      ∧ (runWebhookBatch getGeminiResponseMock n8n 0 c2Messages []).store =
          [("u", ⟨"email", "recipient", ⟨"", "", ""⟩, 0⟩)] :=
  fun _ => ⟨rfl, rfl⟩

theorem processMessages_append (body : String → String → Store → Except ProcOut ProcOut)
    (xs ys : List InboundMessage) (st : Store) :
    processMessages body (xs ++ ys) st =
      ⟨(processMessages body xs st).sends
          ++ (processMessages body ys (processMessages body xs st).store).sends,
        (processMessages body xs st).dispatched
          ++ (processMessages body ys (processMessages body xs st).store).dispatched,
        (processMessages body ys (processMessages body xs st).store).store⟩ := by
  induction xs generalizing st with
  | nil => simp [processMessages]
  | cons m rest ih =>
      by_cases h : m.type = "text"
      · simp [processMessages, h, ih, List.append_assoc]
      · simp [processMessages, h, ih]

/-- Claim C7: in a batch, when the processing of one text message throws
— the exception carrying the sends, posts and store mutations already
performed — the error is contained at the per-message boundary: a
generic apology send is attempted for that user, and all following
messages of the batch are still processed from the store the failed
message left behind. -/
theorem c7_per_message_error_containment
    (body : String → String → Store → Except ProcOut ProcOut)
    (pre suf : List InboundMessage) (m : InboundMessage) (st : Store) (e : ProcOut)
    (hty : m.type = "text")
    (herr : body m.text m.fromNumber (processMessages body pre st).store = Except.error e) :
    processMessages body (pre ++ m :: suf) st =
      ⟨(processMessages body pre st).sends
          ++ (e.sends ++ [(m.fromNumber, apologyText)])
          ++ (processMessages body suf e.store).sends,
        (processMessages body pre st).dispatched ++ e.dispatched
          ++ (processMessages body suf e.store).dispatched,
        (processMessages body suf e.store).store⟩ := by
  rw [processMessages_append]
  simp [processMessages, hty, herr, handleMessageResult, List.append_assoc]

theorem c7_per_message_error_containment_witness :
    processMessages (fun _ _ s => Except.error ⟨[], [], s⟩)
        [⟨"text", "u", "boom"⟩, ⟨"text", "v", "hello"⟩] [] =
      ⟨[("u", apologyText), ("v", apologyText)], [], []⟩ :=
  c7_per_message_error_containment (fun _ _ s => Except.error ⟨[], [], s⟩)
    [] [⟨"text", "v", "hello"⟩] ⟨"text", "u", "boom"⟩ [] ⟨[], [], []⟩ rfl rfl
